import Mathlib

/-!
Shallow embedding of the streaming dictation daemon
(`whisper_dictate_daemon.py`) and proofs about its session manager,
stream reader, text injector and command server.

External effects (TCP probe, subprocess spawning/termination, the
injection tool's exit status, data drained by the reader thread during
teardown) are modelled as explicit input parameters of the operations;
everything else follows the source line by line.
-/

namespace WhisperDaemon

/-! ## Python string primitives used by the daemon -/

/-- Characters Python's str.strip and str.split treat as whitespace. -/
def isPySpace (c : Char) : Bool :=
  c = ' ' || c = '\t' || c = '\n' || c = '\r' || c = '\x0b' || c = '\x0c'

/-- Python str.strip(): drop leading and trailing whitespace. -/
def pyStrip (cs : List Char) : List Char :=
  ((cs.dropWhile isPySpace).reverse.dropWhile isPySpace).reverse

/-- str.strip() on whole strings. -/
def pyStripStr (s : String) : String :=
  String.mk (pyStrip s.data)

/-- Python str.lower() (ASCII, which is all the commands use). -/
def pyLower (s : String) : String :=
  String.mk (s.data.map Char.toLower)

/-- Split off the part of a character list before its first space
character; the second component is `some rest` when a space was found. -/
def breakSpace : List Char → List Char × Option (List Char)
  | [] => ([], none)
  | c :: cs =>
    if c = ' ' then ([], some cs)
    else
      let r := breakSpace cs
      (c :: r.1, r.2)

/-- Python s.split(' ', maxsplit=n): split on single space characters,
keeping empty parts, with at most n splits performed. -/
def pySplitSpace : Nat → List Char → List (List Char)
  | 0, cs => [cs]
  | n + 1, cs =>
    match breakSpace cs with
    | (_, none) => [cs]
    | (pre, some rest) => pre :: pySplitSpace n rest

/-- One whitespace-delimited field collector for Python str.split() with
no separator argument: runs of whitespace delimit fields, no empty
fields are produced. -/
def pyFieldsAux : List Char → List Char → List (List Char)
  | acc, [] => if acc = [] then [] else [acc.reverse]
  | acc, c :: cs =>
    if isPySpace c then
      if acc = [] then pyFieldsAux [] cs
      else acc.reverse :: pyFieldsAux [] cs
    else pyFieldsAux (c :: acc) cs

/-- Python s.split() with no separator: the whitespace-separated fields
of a string (empty fields never occur). -/
def pyFields (s : String) : List String :=
  (pyFieldsAux [] s.data).map String.mk

/-! ## parse_streaming_line -/

/-- parse_streaming_line from the daemon: strip the line, split on
single spaces with maxsplit=2, and return the third part (the text
field, leading space preserved) when there are at least 3 parts,
otherwise the empty string. -/
def parse_streaming_line (line : String) : String :=
  let parts := pySplitSpace 2 (pyStrip line.data)
  if 3 ≤ parts.length then String.mk (parts.getD 2 []) else ""

/-- A line the parser accepts: stripping then splitting on single
spaces (maxsplit 2) yields at least 3 parts. This is exactly the test
`len(parts) >= 3` in parse_streaming_line. -/
def wellFormedLine (line : String) : Bool :=
  decide (3 ≤ (pySplitSpace 2 (pyStrip line.data)).length)

/-! ## Text injection (type_text / handle_streaming_output) -/

/-- The Python exceptions the injection code can raise and catches. -/
inductive PyErr
  | calledProcessError (msg : String)
  | fileNotFoundError (filename : String)
  deriving DecidableEq, Repr

/-- Outcome of one subprocess.run invocation of the injection tool. -/
inductive InjectOutcome
  | ok
  | calledProcessError (msg : String)
  | fileNotFound
  deriving DecidableEq, Repr

/-- The injection methods type_text knows. -/
def knownMethod (m : String) : Bool :=
  m = "wtype" || m = "ydotool" || m = "xdotool"

/-- The try-block of type_text: for a known method it runs the external
tool (which may raise CalledProcessError or FileNotFoundError); for an
unknown method it only logs. Returns the log lines produced. -/
def type_text_try (method : String) (out : InjectOutcome) :
    Except PyErr (List String) :=
  if knownMethod method then
    match out with
    | .ok => .ok []
    | .calledProcessError e => .error (.calledProcessError e)
    | .fileNotFound => .error (.fileNotFoundError method)
  else .ok ["Unknown input method: " ++ method]

/-- type_text: no-op on empty text; otherwise runs the tool and catches
CalledProcessError and FileNotFoundError, logging instead of
re-raising. An uncaught exception would surface as `.error`. -/
def type_text (method text : String) (out : InjectOutcome) :
    Except PyErr (List String) :=
  if text = "" then .ok []
  else
    match type_text_try method out with
    | .ok logs => .ok logs
    | .error (.calledProcessError e) => .ok ["Failed to type text: " ++ e]
    | .error (.fileNotFoundError _) =>
        .ok ["Text input tool not found: " ++ method]

/-- Number of subprocess invocations type_text attempts: one for a
known method on nonempty text, none otherwise. -/
def type_text_calls (method text : String) : Nat :=
  if text = "" then 0 else if knownMethod method then 1 else 0

/-- handle_streaming_output: ignores empty text, otherwise types the
segment and then appends it to the accumulated text. An exception from
type_text would propagate (skipping the append). -/
def handle_streaming_output (method : String) (out : InjectOutcome)
    (newText typed : String) : Except PyErr String :=
  if newText = "" then .ok typed
  else
    match type_text method newText out with
    | .ok _ => .ok (typed ++ newText)
    | .error e => .error e

/-! ## Stream reader -/

/-- One iteration of reader_thread_func on a received line: decode and
strip it, skip it when empty, otherwise parse it and deliver nonempty
text to handle_streaming_output (the catch-all around the body leaves
the accumulated text unchanged if an exception escaped). -/
def readerStep (method : String) (out : InjectOutcome)
    (typed raw : String) : String :=
  let line := pyStripStr raw
  if line = "" then typed
  else
    let text := parse_streaming_line line
    if text = "" then typed
    else
      match handle_streaming_output method out text typed with
      | .ok t => t
      | .error _ => typed

/-- Whether the reader invokes injection (handle_streaming_output, and
through it type_text) for a received line. -/
def readerInjects (raw : String) : Bool :=
  let line := pyStripStr raw
  !(line == "") && !(parse_streaming_line line == "")

/-- Run the reader over a list of received lines, in delivery order. -/
def deliverAll (method : String) (out : InjectOutcome)
    (typed : String) (lines : List String) : String :=
  lines.foldl (readerStep method out) typed

/-- Concatenation of a list of strings, in order. -/
def concatStrs : List String → String
  | [] => ""
  | s :: rest => s ++ concatStrs rest

/-! ## Daemon state and responses -/

/-- The daemon's global mutable session state: presence of the two
subprocess handles (arecord_proc, nc_proc) and the reader thread
handle, the accumulated text typed_so_far, and the stop_reader event. -/
structure DaemonState where
  arecord : Bool
  nc : Bool
  reader : Bool
  typed : String
  stopFlag : Bool
  deriving DecidableEq, Repr

/-- Initial daemon state: no processes, no reader, empty text. -/
def initState : DaemonState :=
  { arecord := false, nc := false, reader := false, typed := "", stopFlag := false }

/-- A JSON response dictionary; absent keys are `none`. -/
structure Resp where
  status : String
  message : Option String := none
  text : Option String := none
  streaming : Option Bool := none
  server_available : Option Bool := none
  streaming_host : Option String := none
  streaming_port : Option String := none
  input_method : Option String := none
  typed_so_far : Option String := none
  deriving DecidableEq, Repr

/-- Configuration read from the environment at startup. -/
structure Env where
  host : String
  port : String
  method : String
  deriving DecidableEq, Repr

/-- How the spawning section of start_streaming turns out: both spawns
succeed, one of the two tools is missing (FileNotFoundError, filename
of the missing binary), or some other exception with message. -/
inductive SpawnOutcome
  | ok
  | arecordMissing
  | ncMissing
  | otherError (msg : String)
  deriving DecidableEq, Repr

/-! ## Session manager operations -/

/-- The error message start_streaming builds when the TCP probe of the
backend fails. -/
def unavailableMsg (env : Env) : String :=
  "Streaming server not available at " ++ env.host ++ ":" ++ env.port ++
    ". Check: systemctl --user status whisper-streaming-server"

/-- start_streaming: under the lock, refuse when already streaming,
probe the backend (`avail` is the probe result), and otherwise reset
the text, spawn the pipeline (`sp` is that section's outcome) and the
reader thread. The except-handlers clear both process handles. -/
def start_streaming (env : Env) (avail : Bool) (sp : SpawnOutcome)
    (s : DaemonState) : DaemonState × Resp :=
  if s.arecord then (s, { status := "error", message := some "Already streaming" })
  else if !avail then
    (s, { status := "error", message := some (unavailableMsg env) })
  else
    match sp with
    | .ok =>
        ({ arecord := true, nc := true, reader := true, typed := "", stopFlag := false },
         { status := "ok", message := some "Streaming started" })
    | .arecordMissing =>
        ({ s with arecord := false, nc := false, typed := "", stopFlag := false },
         { status := "error", message := some "Required tool not found: arecord" })
    | .ncMissing =>
        ({ s with arecord := false, nc := false, typed := "", stopFlag := false },
         { status := "error", message := some "Required tool not found: nc" })
    | .otherError m =>
        ({ s with arecord := false, nc := false, typed := "", stopFlag := false },
         { status := "error", message := some m })

/-- Whether start_streaming reaches its process-spawning section: only
when not already streaming and the probe succeeded. -/
def start_reaches_spawn (avail : Bool) (s : DaemonState) : Bool :=
  !s.arecord && avail

/-- stop_streaming: under the lock, refuse when not streaming;
otherwise snapshot typed_so_far, tear the pipeline down (`drained` is
whatever the still-running reader appended meanwhile, `exc` an
exception raised during teardown, which skips the re-read of
typed_so_far but is swallowed), reset all three handles in the
finally-block, and answer ok with the captured text. -/
def stop_streaming (drained : String) (exc : Option String)
    (s : DaemonState) : DaemonState × Resp :=
  if !s.arecord then (s, { status := "error", message := some "Not streaming" })
  else
    let typed1 := s.typed ++ drained
    let final_text := match exc with
      | none => typed1
      | some _ => s.typed
    let s1 : DaemonState :=
      { arecord := false, nc := false, reader := false, typed := typed1, stopFlag := true }
    if final_text = "" then
      (s1, { status := "ok", message := some "Stopped (no speech detected)", text := some "" })
    else
      (s1, { status := "ok", message := some "Stopped", text := some final_text })

/-- The journal lines stop_streaming logs (stderr only, never part of
the response): the teardown exception is logged, not re-raised. -/
def stop_streaming_log (exc : Option String) (s : DaemonState) : List String :=
  if !s.arecord then []
  else
    match exc with
    | none => ["Streaming stopped"]
    | some e => ["Error stopping streaming: " ++ e]

/-- toggle_streaming, sequential view: reads the streaming flag under
the lock, then (after releasing it) delegates to stop or start. -/
def toggle_streaming (env : Env) (avail : Bool) (sp : SpawnOutcome)
    (drained : String) (exc : Option String) (s : DaemonState) :
    DaemonState × Resp :=
  if s.arecord then stop_streaming drained exc s
  else start_streaming env avail sp s

/-- get_status: reads the streaming flag under the lock, probes the
backend (`avail`), and reports configuration plus typed_so_far when
streaming; it assigns no state. -/
def get_status (env : Env) (avail : Bool) (s : DaemonState) :
    DaemonState × Resp :=
  (s, { status := "ok",
        streaming := some s.arecord,
        server_available := some avail,
        streaming_host := some env.host,
        streaming_port := some env.port,
        input_method := some env.method,
        typed_so_far := some (if s.arecord then s.typed else "") })

/-! ## Command server -/

/-- The per-request external inputs a command may consume. -/
structure DynIn where
  avail : Bool
  sp : SpawnOutcome
  drained : String
  exc : Option String
  deriving DecidableEq, Repr

/-- handle_command: normalize (strip, lowercase) and dispatch. -/
def handle_command (env : Env) (din : DynIn) (s : DaemonState)
    (cmd : String) : DaemonState × Resp :=
  let c := pyLower (pyStripStr cmd)
  if c = "start" then start_streaming env din.avail din.sp s
  else if c = "stop" then stop_streaming din.drained din.exc s
  else if c = "toggle" then toggle_streaming env din.avail din.sp din.drained din.exc s
  else if c = "status" then get_status env din.avail s
  else if c = "ping" then (s, { status := "ok", message := some "pong" })
  else (s, { status := "error", message := some ("Unknown command: " ++ c) })

/-- handle_client: `if data:` — zero bytes received means no command is
dispatched and no response is written back. -/
def handle_client (env : Env) (din : DynIn) (s : DaemonState)
    (data : String) : DaemonState × Option Resp :=
  if data = "" then (s, none)
  else
    let r := handle_command env din s data
    (r.1, some r.2)

/-! ## Sequences of session operations (state-machine view) -/

/-- One session-manager call together with its external inputs. -/
inductive SessOp
  | startOp (avail : Bool) (sp : SpawnOutcome)
  | stopOp (drained : String) (exc : Option String)
  | togOp (avail : Bool) (sp : SpawnOutcome) (drained : String) (exc : Option String)
  deriving DecidableEq, Repr

/-- Execute one session operation. -/
def sessStep (env : Env) (s : DaemonState) : SessOp → DaemonState × Resp
  | .startOp a sp => start_streaming env a sp s
  | .stopOp d e => stop_streaming d e s
  | .togOp a sp d e => toggle_streaming env a sp d e s

/-- Final state after a sequence of session operations. -/
def sessRun (env : Env) (s : DaemonState) (ops : List SessOp) : DaemonState :=
  ops.foldl (fun t op => (sessStep env t op).1) s

/-- The executed operations paired with their responses. -/
def sessTrace (env : Env) (s : DaemonState) : List SessOp → List (SessOp × Resp)
  | [] => []
  | op :: rest =>
    let r := sessStep env s op
    (op, r.2) :: sessTrace env r.1 rest

/-- Classify an executed operation: `some true` for a successful start
transition, `some false` for a successful stop transition, `none` for a
failed operation. A successful toggle is told apart by its message,
which is the fixed literal "Streaming started" exactly on the start
path. -/
def classifyEvent : SessOp × Resp → Option Bool
  | (op, r) =>
    if r.status = "ok" then
      match op with
      | .startOp _ _ => some true
      | .stopOp _ _ => some false
      | .togOp _ _ _ _ =>
          if r.message = some "Streaming started" then some true else some false
    else none

/-- The successful start/stop transitions of a run, in order. -/
def sessMarks (env : Env) (s : DaemonState) (ops : List SessOp) : List Bool :=
  (sessTrace env s ops).filterMap classifyEvent

/-! ## Concurrency model: lock-protected sections -/

/-- The with-streaming_lock critical sections of the daemon, each of
which runs indivisibly. start_streaming and stop_streaming each consist
of one such section; toggle_streaming and get_status read the streaming
flag in a section of their own (readCheckSec) and act outside it. -/
inductive LockSec
  | startSec (avail : Bool) (sp : SpawnOutcome)
  | stopSec (drained : String) (exc : Option String)
  | readCheckSec
  deriving DecidableEq, Repr

/-- Effect of one critical section on the shared daemon state. -/
def lockSecStep (env : Env) (s : DaemonState) : LockSec → DaemonState
  | .startSec a sp => (start_streaming env a sp s).1
  | .stopSec d e => (stop_streaming d e s).1
  | .readCheckSec => s

/-- Shared state reached after an arbitrary interleaving of critical
sections (any interleaving of the operations' sections is such a
list). -/
def lockSecRun (env : Env) (s : DaemonState) (secs : List LockSec) : DaemonState :=
  secs.foldl (lockSecStep env) s

/-- The session invariant the claim's consequent is about: the active
flag (arecord handle) agrees with the relay handle and the reader
handle. -/
def handlesConsistent (s : DaemonState) : Bool :=
  s.arecord == s.nc && s.arecord == s.reader

/-! ## Concurrency model: two racing toggle calls -/

/-- Shared state plus the two toggle threads' private data: the
streaming flag each read in its first critical section, and each
thread's response. -/
structure TwoToggles where
  d : DaemonState
  pend1 : Option Bool
  pend2 : Option Bool
  r1 : Option Resp
  r2 : Option Resp
  deriving DecidableEq, Repr

/-- The atomic steps of two concurrent toggle_streaming calls: each
thread first reads the streaming flag under the lock (check), then,
under a second lock acquisition, runs stop or start according to what
it read (act). -/
inductive TogMicro
  | check1
  | check2
  | act1
  | act2
  deriving DecidableEq, Repr

/-- toggle's dispatch on the flag it read earlier. -/
def togDispatch (env : Env) (din : DynIn) (b : Bool) (d : DaemonState) :
    DaemonState × Resp :=
  if b then stop_streaming din.drained din.exc d
  else start_streaming env din.avail din.sp d

/-- Execute one atomic step of the two racing toggles. -/
def togMicroStep (env : Env) (din : DynIn) (st : TwoToggles) :
    TogMicro → TwoToggles
  | .check1 => { st with pend1 := some st.d.arecord }
  | .check2 => { st with pend2 := some st.d.arecord }
  | .act1 =>
    match st.pend1 with
    | none => st
    | some b =>
      let r := togDispatch env din b st.d
      { st with d := r.1, r1 := some r.2, pend1 := none }
  | .act2 =>
    match st.pend2 with
    | none => st
    | some b =>
      let r := togDispatch env din b st.d
      { st with d := r.1, r2 := some r.2, pend2 := none }

/-- Run an interleaving of the two toggles' atomic steps. -/
def togMicroRun (env : Env) (din : DynIn) (st : TwoToggles)
    (ms : List TogMicro) : TwoToggles :=
  ms.foldl (togMicroStep env din) st

/-- Both toggle threads at their starting point, daemon idle. -/
def twoTogglesInit : TwoToggles :=
  { d := initState, pend1 := none, pend2 := none, r1 := none, r2 := none }

/-- The daemon's default configuration values. -/
def env0 : Env := { host := "localhost", port := "43001", method := "ydotool" }

/-- Benign external inputs: backend reachable, spawns succeed, nothing
drained, no teardown exception. -/
def din0 : DynIn := { avail := true, sp := .ok, drained := "", exc := none }

/-- An Active session whose accumulated text is `t`, as start followed
by segment deliveries produces it. -/
def activeWith (t : String) : DaemonState :=
  { arecord := true, nc := true, reader := true, typed := t, stopFlag := false }

/-! ## Helper lemmas about Python string primitives -/

theorem dropWhile_cons_false (p : Char → Bool) (c : Char) (r : List Char)
    (h : p c = false) : (c :: r).dropWhile p = c :: r := by
  simp [List.dropWhile_cons, h]

theorem dropWhile_head_not (p : Char → Bool) :
    ∀ l : List Char, l.dropWhile p = [] ∨
      ∃ c r, l.dropWhile p = c :: r ∧ p c = false := by
  intro l
  induction l with
  | nil => exact Or.inl rfl
  | cons c r ih =>
    by_cases h : p c = true
    · simpa [List.dropWhile_cons, h] using ih
    · refine Or.inr ⟨c, r, ?_, by simpa using h⟩
      simp [List.dropWhile_cons, h]

theorem dropWhile_idem (p : Char → Bool) (l : List Char) :
    (l.dropWhile p).dropWhile p = l.dropWhile p := by
  rcases dropWhile_head_not p l with h | ⟨c, r, h, hc⟩
  · rw [h]; rfl
  · rw [h]; exact dropWhile_cons_false p c r hc

theorem dropWhile_suffix_ex (p : Char → Bool) :
    ∀ l : List Char, ∃ t, t ++ l.dropWhile p = l := by
  intro l
  induction l with
  | nil => exact ⟨[], rfl⟩
  | cons c r ih =>
    by_cases h : p c = true
    · obtain ⟨t, ht⟩ := ih
      exact ⟨c :: t, by simp [List.dropWhile_cons, h, ht]⟩
    · exact ⟨[], by simp [List.dropWhile_cons, h]⟩

theorem dropWhile_reverse_dropWhile (p : Char → Bool) (m : List Char)
    (hm : m.dropWhile p = m) :
    (m.reverse.dropWhile p).reverse.dropWhile p
      = (m.reverse.dropWhile p).reverse := by
  obtain ⟨t, ht⟩ := dropWhile_suffix_ex p m.reverse
  have hm2 : (m.reverse.dropWhile p).reverse ++ t.reverse = m := by
    have h1 := congrArg List.reverse ht
    rw [List.reverse_append] at h1
    simpa using h1
  cases hu : (m.reverse.dropWhile p).reverse with
  | nil => simp
  | cons c r =>
    have hm3 : m = c :: (r ++ t.reverse) := by
      rw [← hm2, hu]; simp
    have hpc : p c = false := by
      cases hpc : p c with
      | false => rfl
      | true =>
        exfalso
        have h2 := hm
        rw [hm3] at h2
        rw [List.dropWhile_cons] at h2
        simp only [hpc, if_true] at h2
        have h3 := (List.dropWhile_sublist (l := r ++ t.reverse) p).length_le
        rw [h2] at h3
        simp at h3
    exact dropWhile_cons_false p c r hpc

theorem pyStrip_idem (cs : List Char) : pyStrip (pyStrip cs) = pyStrip cs := by
  unfold pyStrip
  rw [dropWhile_reverse_dropWhile isPySpace (cs.dropWhile isPySpace)
      (dropWhile_idem isPySpace cs)]
  rw [List.reverse_reverse]
  rw [dropWhile_idem isPySpace (cs.dropWhile isPySpace).reverse]

theorem parse_strip (raw : String) :
    parse_streaming_line (pyStripStr raw) = parse_streaming_line raw := by
  unfold parse_streaming_line pyStripStr
  rw [show (String.mk (pyStrip raw.data)).data = pyStrip raw.data from rfl]
  rw [pyStrip_idem]

/-! ## Helper lemmas about injection and segment delivery -/

theorem type_text_isOk (m t : String) (o : InjectOutcome) :
    ∃ logs, type_text m t o = .ok logs := by
  by_cases ht : t = ""
  · exact ⟨[], by simp [type_text, ht]⟩
  · by_cases hk : knownMethod m = true
    · cases o with
      | ok => exact ⟨[], by simp [type_text, type_text_try, ht, hk]⟩
      | calledProcessError e =>
          exact ⟨["Failed to type text: " ++ e],
            by simp [type_text, type_text_try, ht, hk]⟩
      | fileNotFound =>
          exact ⟨["Text input tool not found: " ++ m],
            by simp [type_text, type_text_try, ht, hk]⟩
    · exact ⟨["Unknown input method: " ++ m],
        by simp [type_text, type_text_try, ht, hk]⟩

theorem handle_append (m : String) (o : InjectOutcome) (nt t : String) :
    handle_streaming_output m o nt t = .ok (t ++ nt) := by
  unfold handle_streaming_output
  by_cases hnt : nt = ""
  · simp [hnt]
  · obtain ⟨logs, hl⟩ := type_text_isOk m nt o
    simp [hnt, hl]

theorem readerStep_eq (m : String) (o : InjectOutcome) (t raw : String) :
    readerStep m o t raw = t ++ parse_streaming_line raw := by
  unfold readerStep
  by_cases h0 : pyStripStr raw = ""
  · have hp : parse_streaming_line raw = "" := by
      rw [← parse_strip raw, h0]; rfl
    simp [h0, hp]
  · by_cases h1 : parse_streaming_line (pyStripStr raw) = ""
    · have hp : parse_streaming_line raw = "" := by rw [← parse_strip raw]; exact h1
      simp [h0, h1, hp]
    · rw [parse_strip raw] at h1
      simp only [h0, if_neg, ite_false]
      rw [parse_strip raw]
      simp [h1, handle_append]

theorem deliverAll_eq (m : String) (o : InjectOutcome) :
    ∀ (lines : List String) (t : String),
      deliverAll m o t lines = t ++ concatStrs (lines.map parse_streaming_line) := by
  intro lines
  induction lines with
  | nil => intro t; simp [deliverAll, concatStrs]
  | cons l ls ih =>
    intro t
    have h1 : deliverAll m o t (l :: ls) = deliverAll m o (readerStep m o t l) ls := rfl
    rw [h1, ih, readerStep_eq]
    simp [concatStrs, String.append_assoc]

theorem concat_filter_wf : ∀ lines : List String,
    concatStrs ((lines.filter wellFormedLine).map parse_streaming_line)
      = concatStrs (lines.map parse_streaming_line) := by
  intro lines
  induction lines with
  | nil => rfl
  | cons l ls ih =>
    by_cases h : wellFormedLine l = true
    · simp [List.filter_cons, h, concatStrs, ih]
    · have hp : parse_streaming_line l = "" := by
        unfold wellFormedLine at h
        simp only [decide_eq_true_eq] at h
        unfold parse_streaming_line
        simp [h]
      simp [List.filter_cons, h, concatStrs, ih, hp]

theorem stop_ok_text (t : String) :
    (stop_streaming "" none (activeWith t)).2.status = "ok" ∧
    (stop_streaming "" none (activeWith t)).2.text = some t := by
  unfold stop_streaming activeWith
  by_cases h : t = "" <;> simp [h]

/-! ## Claim theorems -/

/-- C1: for any sequence of backend lines delivered during one session,
the final accumulated text is the concatenation, in delivery order, of
the parsed text fields of lines the parser accepts (leading space
preserved), malformed lines contributing nothing, and a stop of that
session answers ok with exactly this string in its text field; in
particular "0 500 Hello" then "500 900  world" accumulate to
"Hello world" and stop returns ok / "Hello world". -/
theorem c1_accumulated_concat :
    (∀ (m : String) (o : InjectOutcome) (lines : List String),
      deliverAll m o "" lines
        = concatStrs ((lines.filter wellFormedLine).map parse_streaming_line)) ∧
    (∀ (m : String) (o : InjectOutcome) (lines : List String),
      (stop_streaming "" none (activeWith (deliverAll m o "" lines))).2.status = "ok" ∧
      (stop_streaming "" none (activeWith (deliverAll m o "" lines))).2.text
        = some (deliverAll m o "" lines)) ∧
    deliverAll "ydotool" .ok "" ["0 500 Hello", "500 900  world"] = "Hello world" ∧
    (stop_streaming "" none (activeWith "Hello world")).2
      = { status := "ok", message := some "Stopped", text := some "Hello world" } := by
  refine ⟨?_, ?_, ?_, ?_⟩
  · intro m o lines
    rw [deliverAll_eq, concat_filter_wf]
    exact String.empty_append _
  · intro m o lines
    exact stop_ok_text _
  · decide
  · decide

/-- C2 counterexample: the line "a  b" (two spaces) has only 2
whitespace-separated fields, yet parse_streaming_line returns the
nonempty text "b", the reader injects it, and the accumulated text
changes — so a line with fewer than 3 whitespace-separated fields is
not always dropped. -/
theorem c2_counterexample :
    (pyFields "a  b").length = 2 ∧
    parse_streaming_line "a  b" = "b" ∧
    readerInjects "a  b" = true ∧
    readerStep "ydotool" .ok "" "a  b" = "b" := by
  decide

/-- C2 amended: for every input line that strip-then-split-on-single-
spaces (maxsplit 2, empty parts counted) turns into fewer than 3 parts,
parsing returns the empty text segment and the line is dropped: no
injection call is made and the accumulated text is unchanged. -/
theorem c2_malformed_dropped (line : String)
    (h : (pySplitSpace 2 (pyStrip line.data)).length < 3) :
    parse_streaming_line line = "" ∧
    readerInjects line = false ∧
    ∀ (m : String) (o : InjectOutcome) (t : String), readerStep m o t line = t := by
  have hp : parse_streaming_line line = "" := by
    unfold parse_streaming_line
    simp [Nat.not_le.mpr h]
  have hps : parse_streaming_line (pyStripStr line) = "" := by
    rw [parse_strip]; exact hp
  refine ⟨hp, ?_, ?_⟩
  · unfold readerInjects
    simp [hps]
  · intro m o t
    rw [readerStep_eq, hp]
    exact String.append_empty t

/-- C2 amended, witness: the single-field line "garbage" is dropped. -/
theorem c2_malformed_dropped_witness :
    parse_streaming_line "garbage" = "" ∧
    readerInjects "garbage" = false ∧
    readerStep "ydotool" .ok "X" "garbage" = "X" :=
  ⟨(c2_malformed_dropped "garbage" (by decide)).1,
   (c2_malformed_dropped "garbage" (by decide)).2.1,
   (c2_malformed_dropped "garbage" (by decide)).2.2 "ydotool" .ok "X"⟩

/-- C5: start while Active always fails with the already-active error
and returns the state untouched — accumulated text, both process
handles, the reader handle and the active flag all keep their values. -/
theorem c5_start_while_active (env : Env) (avail : Bool) (sp : SpawnOutcome)
    (s : DaemonState) (h : s.arecord = true) :
    start_streaming env avail sp s
      = (s, { status := "error", message := some "Already streaming" }) := by
  unfold start_streaming
  simp [h]

/-- C5 witness at a concrete Active state. -/
theorem c5_start_while_active_witness :
    start_streaming env0 true .ok (activeWith "hi")
      = (activeWith "hi", { status := "error", message := some "Already streaming" }) :=
  c5_start_while_active env0 true .ok (activeWith "hi") (by decide)

/-- C6: when start is called while Idle and the TCP probe of the
backend fails, start answers an error whose message names the streaming
server as unavailable and embeds the configured host and port, the
spawning section is never reached, and the state (Idle) is unchanged. -/
theorem c6_probe_fail (env : Env) (sp : SpawnOutcome) (s : DaemonState)
    (h : s.arecord = false) :
    start_streaming env false sp s
      = (s, { status := "error", message := some (unavailableMsg env) }) ∧
    unavailableMsg env
      = "Streaming server not available at " ++ env.host ++ ":" ++ env.port ++
          ". Check: systemctl --user status whisper-streaming-server" ∧
    start_reaches_spawn false s = false := by
  refine ⟨?_, rfl, ?_⟩
  · unfold start_streaming
    simp [h]
  · unfold start_reaches_spawn
    simp

/-- C6 witness with the default configuration from the Idle state. -/
theorem c6_probe_fail_witness :
    start_streaming env0 false .ok initState
      = (initState, { status := "error", message := some (unavailableMsg env0) }) ∧
    unavailableMsg env0
      = "Streaming server not available at " ++ env0.host ++ ":" ++ env0.port ++
          ". Check: systemctl --user status whisper-streaming-server" ∧
    start_reaches_spawn false initState = false :=
  c6_probe_fail env0 .ok initState (by decide)

/-- C7 counterexample: a teardown exception in stop is swallowed — the
command caller receives exactly the same ok/"Stopped" response as a
clean stop, so the failure is not surfaced with a descriptive message
(it only reaches the log). -/
theorem c7_counterexample :
    stop_streaming "" (some "boom") (activeWith "hello there")
      = stop_streaming "" none (activeWith "hello there") ∧
    (stop_streaming "" (some "boom") (activeWith "hello there")).2.status = "ok" ∧
    (stop_streaming "" (some "boom") (activeWith "hello there")).2.message
      = some "Stopped" ∧
    stop_streaming_log (some "boom") (activeWith "hello there")
      = ["Error stopping streaming: boom"] := by
  decide

/-- C7 amended: if an exception is raised during stop's teardown of an
Active session, the session is nevertheless left forced-Idle (capture
process, relay process and reader handles all released) before stop
returns, and the response still carries the text accumulated as of
stop's entry — but the failure itself is only logged; the caller
receives a normal ok response. -/
theorem c7_stop_teardown (d e : String) (s : DaemonState)
    (h : s.arecord = true) :
    (stop_streaming d (some e) s).1.arecord = false ∧
    (stop_streaming d (some e) s).1.nc = false ∧
    (stop_streaming d (some e) s).1.reader = false ∧
    (stop_streaming d (some e) s).2.status = "ok" ∧
    (stop_streaming d (some e) s).2.text = some s.typed ∧
    stop_streaming_log (some e) s = ["Error stopping streaming: " ++ e] := by
  unfold stop_streaming stop_streaming_log
  by_cases ht : s.typed = "" <;> simp [h, ht]

/-- C7 amended, witness at a concrete Active state. -/
theorem c7_stop_teardown_witness :
    (stop_streaming " tail" (some "boom") (activeWith "hello")).1.arecord = false ∧
    (stop_streaming " tail" (some "boom") (activeWith "hello")).1.nc = false ∧
    (stop_streaming " tail" (some "boom") (activeWith "hello")).1.reader = false ∧
    (stop_streaming " tail" (some "boom") (activeWith "hello")).2.status = "ok" ∧
    (stop_streaming " tail" (some "boom") (activeWith "hello")).2.text
      = some (activeWith "hello").typed ∧
    stop_streaming_log (some "boom") (activeWith "hello")
      = ["Error stopping streaming: boom"] :=
  c7_stop_teardown " tail" "boom" (activeWith "hello") (by decide)

/-- C8: for every text, configured method and tool outcome, type_text
never raises (subprocess failure and a missing tool become log lines),
an unknown method is a logged no-op with no subprocess invocation, and
handle_streaming_output always appends the segment to the accumulated
text whatever the injection outcome was. -/
theorem c8_injection_never_raises (m t : String) (o : InjectOutcome) :
    (∃ logs, type_text m t o = .ok logs) ∧
    (knownMethod m = false → t ≠ "" →
      type_text m t o = .ok ["Unknown input method: " ++ m] ∧
      type_text_calls m t = 0) ∧
    (∀ typed : String,
      handle_streaming_output m o t typed = .ok (typed ++ t)) := by
  refine ⟨type_text_isOk m t o, ?_, fun typed => handle_append m o t typed⟩
  intro hk ht
  constructor
  · unfold type_text type_text_try
    simp [ht, hk]
  · unfold type_text_calls
    simp [ht, hk]

/-- C8 witness: unknown method, nonempty text, failing subprocess. -/
theorem c8_injection_never_raises_witness :
    (∃ logs, type_text "kdotool" "hi" (.calledProcessError "exit 1") = .ok logs) ∧
    type_text "kdotool" "hi" (.calledProcessError "exit 1")
      = .ok ["Unknown input method: " ++ "kdotool"] ∧
    type_text_calls "kdotool" "hi" = 0 ∧
    handle_streaming_output "kdotool" (.calledProcessError "exit 1") "hi" "AB"
      = .ok ("AB" ++ "hi") :=
  ⟨(c8_injection_never_raises "kdotool" "hi" (.calledProcessError "exit 1")).1,
   ((c8_injection_never_raises "kdotool" "hi" (.calledProcessError "exit 1")).2.1
      (by decide) (by decide)).1,
   ((c8_injection_never_raises "kdotool" "hi" (.calledProcessError "exit 1")).2.1
      (by decide) (by decide)).2,
   (c8_injection_never_raises "kdotool" "hi" (.calledProcessError "exit 1")).2.2 "AB"⟩

/-- C9: get_status never mutates the session state — repeated calls
from the same state return the same fields — and its response carries
the active flag, the live probe result, the configured host, port and
injection method, and the accumulated text when Active, the empty
string when Idle. -/
theorem c9_status_pure (env : Env) (avail : Bool) (s : DaemonState) :
    (get_status env avail s).1 = s ∧
    (get_status env avail s).2
      = { status := "ok",
          streaming := some s.arecord,
          server_available := some avail,
          streaming_host := some env.host,
          streaming_port := some env.port,
          input_method := some env.method,
          typed_so_far := some (if s.arecord then s.typed else "") } ∧
    get_status env avail ((get_status env avail s).1) = get_status env avail s :=
  ⟨rfl, rfl, rfl⟩

/-- C10: a connection delivering zero bytes gets no response at all,
while nonempty data is normalized (strip, lowercase) and dispatched to
the command handler; for example whitespace-padded "PING" reaches the
ping handler. -/
theorem c10_empty_command :
    (∀ (env : Env) (din : DynIn) (s : DaemonState),
      handle_client env din s "" = (s, none)) ∧
    (∀ (env : Env) (din : DynIn) (s : DaemonState) (data : String),
      data ≠ "" →
      handle_client env din s data
        = ((handle_command env din s data).1, some (handle_command env din s data).2)) ∧
    (∀ (env : Env) (din : DynIn) (s : DaemonState),
      handle_command env din s "  PING  " = (s, { status := "ok", message := some "pong" })) := by
  refine ⟨fun env din s => rfl, ?_, ?_⟩
  · intro env din s data hd
    unfold handle_client
    simp [hd]
  · intro env din s
    have h : pyLower (pyStripStr "  PING  ") = "ping" := by decide
    simp [handle_command, h]

/-- C10 witness: zero bytes yield no response, "ping" is dispatched. -/
theorem c10_empty_command_witness :
    handle_client env0 din0 initState "" = (initState, none) ∧
    handle_client env0 din0 initState "ping"
      = ((handle_command env0 din0 initState "ping").1,
         some (handle_command env0 din0 initState "ping").2) ∧
    handle_command env0 din0 initState "  PING  "
      = (initState, { status := "ok", message := some "pong" }) :=
  ⟨c10_empty_command.1 env0 din0 initState,
   c10_empty_command.2.1 env0 din0 initState "ping" (by decide),
   c10_empty_command.2.2 env0 din0 initState⟩

/-! ## C3: lock structure -/

theorem consist_step (env : Env) (s : DaemonState) (sec : LockSec)
    (h : handlesConsistent s = true) :
    handlesConsistent (lockSecStep env s sec) = true := by
  unfold handlesConsistent at h
  simp only [Bool.and_eq_true, beq_iff_eq] at h
  obtain ⟨hnc, hrd⟩ := h
  cases sec with
  | startSec a sp =>
    unfold lockSecStep start_streaming handlesConsistent
    by_cases hs : s.arecord = true
    · simp [hs, ← hnc, ← hrd]
    · simp only [Bool.not_eq_true] at hs
      by_cases ha : a = true
      · cases sp <;> simp [hs, ha, ← hnc, ← hrd]
      · simp only [Bool.not_eq_true] at ha
        simp [hs, ha, ← hnc, ← hrd]
  | stopSec d e =>
    unfold lockSecStep stop_streaming handlesConsistent
    by_cases hs : s.arecord = true
    · by_cases hf : (match e with | none => s.typed ++ d | some _ => s.typed) = ""
        <;> simp [hs, hf, ← hnc, ← hrd]
    · simp only [Bool.not_eq_true] at hs
      simp [hs, ← hnc, ← hrd]
  | readCheckSec =>
    unfold lockSecStep handlesConsistent
    simp [← hnc, ← hrd]

theorem consist_run (env : Env) :
    ∀ (secs : List LockSec) (s : DaemonState),
      handlesConsistent s = true →
      handlesConsistent (lockSecRun env s secs) = true := by
  intro secs
  induction secs with
  | nil => intro s h; exact h
  | cons sec rest ih =>
    intro s h
    exact ih (lockSecStep env s sec) (consist_step env s sec h)

/-- C3 counterexample: toggle is not executed under a single
mutual-exclusion domain — its lock-protected check and its delegated
start/stop are separate critical sections. Interleaving two toggle
calls from the Idle state as check1; check2; act2; act1 makes thread 1
observe Idle yet fail with "Already streaming", an outcome impossible
when the two operations are serialized (both serializations answer only
ok). -/
theorem c3_counterexample :
    (togMicroRun env0 din0 twoTogglesInit
        [.check1, .check2, .act2, .act1]).r1
      = some { status := "error", message := some "Already streaming" } ∧
    (togMicroRun env0 din0 twoTogglesInit
        [.check1, .check2, .act2, .act1]).r2
      = some { status := "ok", message := some "Streaming started" } ∧
    ((sessTrace env0 initState
        [.togOp true .ok "" none, .togOp true .ok "" none]).map
      (fun x => x.2.status)) = ["ok", "ok"] := by
  decide

/-- C3 amended: start and stop each run as one lock-protected critical
section and toggle's and status's reads of the active flag are
lock-protected, but toggle dispatches outside its check's critical
section, so operations can interleave between them. Still, under every
interleaving of critical sections the session invariant holds: the
active flag always agrees with the relay handle and the reader handle,
so a status call never observes active set with the pipeline handle
absent or vice versa. -/
theorem c3_sections_invariant (env : Env) (secs : List LockSec) (avail : Bool) :
    handlesConsistent (lockSecRun env initState secs) = true ∧
    (get_status env avail (lockSecRun env initState secs)).2.streaming
      = some ((lockSecRun env initState secs).nc) ∧
    (get_status env avail (lockSecRun env initState secs)).2.streaming
      = some ((lockSecRun env initState secs).reader) := by
  have h := consist_run env secs initState rfl
  unfold handlesConsistent at h
  simp only [Bool.and_eq_true, beq_iff_eq] at h
  refine ⟨consist_run env secs initState rfl, ?_, ?_⟩ <;>
    · unfold get_status
      simp [← h.1, ← h.2]

/-! ## C4: the session state machine over operation sequences -/

theorem getLast?_isSome_cons {α : Type} (c : α) (r : List α) :
    ∃ x, (c :: r).getLast? = some x := by
  induction r generalizing c with
  | nil => exact ⟨c, rfl⟩
  | cons d t ih => rw [List.getLast?_cons_cons]; exact ih d

theorem getLastD_cons {α : Type} (a b : α) (l : List α) :
    ((a :: l).getLast?).getD b = (l.getLast?).getD a := by
  cases l with
  | nil => rfl
  | cons c r =>
    obtain ⟨x, hx⟩ := getLast?_isSome_cons c r
    rw [List.getLast?_cons_cons, hx]
    rfl

theorem step_classified (env : Env) (s : DaemonState) (op : SessOp) :
    ((sessStep env s op).1).arecord
      = (classifyEvent (op, (sessStep env s op).2)).getD s.arecord := by
  cases op with
  | startOp a sp =>
    unfold sessStep start_streaming classifyEvent
    by_cases hs : s.arecord = true
    · simp [hs]
    · simp only [Bool.not_eq_true] at hs
      by_cases ha : a = true
      · cases sp <;> simp [hs, ha]
      · simp only [Bool.not_eq_true] at ha
        simp [hs, ha]
  | stopOp d e =>
    unfold sessStep stop_streaming classifyEvent
    by_cases hs : s.arecord = true
    · by_cases hf : (match e with | none => s.typed ++ d | some _ => s.typed) = "" <;>
        simp [hs, hf]
    · simp only [Bool.not_eq_true] at hs
      simp [hs]
  | togOp a sp d e =>
    unfold sessStep toggle_streaming start_streaming stop_streaming classifyEvent
    by_cases hs : s.arecord = true
    · by_cases hf : (match e with | none => s.typed ++ d | some _ => s.typed) = "" <;>
        simp [hs, hf]
    · simp only [Bool.not_eq_true] at hs
      by_cases ha : a = true
      · cases sp <;> simp [hs, ha]
      · simp only [Bool.not_eq_true] at ha
        simp [hs, ha]

theorem sessTrace_cons (env : Env) (s : DaemonState) (op : SessOp)
    (rest : List SessOp) :
    sessTrace env s (op :: rest)
      = (op, (sessStep env s op).2) :: sessTrace env ((sessStep env s op).1) rest :=
  rfl

theorem sessRun_marks (env : Env) :
    ∀ (ops : List SessOp) (s : DaemonState),
      (sessRun env s ops).arecord
        = ((sessMarks env s ops).getLast?).getD s.arecord := by
  intro ops
  induction ops with
  | nil => intro s; rfl
  | cons op rest ih =>
    intro s
    have hstep := step_classified env s op
    have hrun : sessRun env s (op :: rest)
        = sessRun env ((sessStep env s op).1) rest := rfl
    cases hc : classifyEvent (op, (sessStep env s op).2) with
    | none =>
      have hmarks : sessMarks env s (op :: rest)
          = sessMarks env ((sessStep env s op).1) rest := by
        unfold sessMarks
        rw [sessTrace_cons, List.filterMap_cons]
        simp only [hc]
      rw [hrun, hmarks, ih]
      rw [hc] at hstep
      simp only [Option.getD_none] at hstep
      rw [hstep]
    | some b =>
      have hmarks : sessMarks env s (op :: rest)
          = b :: sessMarks env ((sessStep env s op).1) rest := by
        unfold sessMarks
        rw [sessTrace_cons, List.filterMap_cons]
        simp only [hc]
      rw [hrun, hmarks, getLastD_cons, ih]
      rw [hc] at hstep
      simp only [Option.getD_some] at hstep
      rw [hstep]

theorem step_transitions (env : Env) (s : DaemonState) (op : SessOp) :
    ((sessStep env s op).1).arecord = s.arecord ∨
    (s.arecord = false ∧ ((sessStep env s op).1).arecord = true ∧
      (sessStep env s op).2.status = "ok") ∨
    (s.arecord = true ∧ ((sessStep env s op).1).arecord = false ∧
      (sessStep env s op).2.status = "ok") := by
  cases op with
  | startOp a sp =>
    unfold sessStep start_streaming
    by_cases hs : s.arecord = true
    · left; simp [hs]
    · simp only [Bool.not_eq_true] at hs
      by_cases ha : a = true
      · cases sp with
        | ok => right; left; simp [hs, ha]
        | arecordMissing => left; simp [hs, ha]
        | ncMissing => left; simp [hs, ha]
        | otherError m => left; simp [hs, ha]
      · simp only [Bool.not_eq_true] at ha
        left; simp [hs, ha]
  | stopOp d e =>
    unfold sessStep stop_streaming
    by_cases hs : s.arecord = true
    · right; right
      by_cases hf : (match e with | none => s.typed ++ d | some _ => s.typed) = "" <;>
        simp [hs, hf]
    · simp only [Bool.not_eq_true] at hs
      left; simp [hs]
  | togOp a sp d e =>
    unfold sessStep toggle_streaming start_streaming stop_streaming
    by_cases hs : s.arecord = true
    · right; right
      by_cases hf : (match e with | none => s.typed ++ d | some _ => s.typed) = "" <;>
        simp [hs, hf]
    · simp only [Bool.not_eq_true] at hs
      by_cases ha : a = true
      · cases sp with
        | ok => right; left; simp [hs, ha]
        | arecordMissing => left; simp [hs, ha]
        | ncMissing => left; simp [hs, ha]
        | otherError m => left; simp [hs, ha]
      · simp only [Bool.not_eq_true] at ha
        left; simp [hs, ha]

/-- C4: after any finite sequence of start/stop/toggle calls from the
initial state, the daemon reports streaming exactly when the last
successful start/stop transition in the trace was a start (i.e. the
most recent successful start has no later successful stop), and every
step either leaves the active flag unchanged or performs one of the two
defined transitions: Idle-to-Active on an ok start, Active-to-Idle on
an ok stop. -/
theorem c4_state_machine :
    (∀ (env : Env) (ops : List SessOp),
      (sessRun env initState ops).arecord
        = ((sessMarks env initState ops).getLast?).getD false) ∧
    (∀ (env : Env) (s : DaemonState) (op : SessOp),
      ((sessStep env s op).1).arecord = s.arecord ∨
      (s.arecord = false ∧ ((sessStep env s op).1).arecord = true ∧
        (sessStep env s op).2.status = "ok") ∨
      (s.arecord = true ∧ ((sessStep env s op).1).arecord = false ∧
        (sessStep env s op).2.status = "ok")) := by
  constructor
  · intro env ops
    exact sessRun_marks env ops initState
  · exact step_transitions

end WhisperDaemon
